import Mathlib

/-!
Verification of the consent-gated voice synthesis pipeline in `app.py`.

The pipeline is shallowly embedded as pure Lean functions:

* `allowed_file`, `prepend_marker`, `log_consent` translate the Python
  helper functions of the same names.
* `index` translates the POST branch of the Flask `index` route as a
  function from an environment (the external collaborators: werkzeug's
  `secure_filename`, Resemblyzer's `preprocess_wav` / `embed_utterance`,
  pyttsx3's `save_to_file`, the UTC clock and the client address), a
  filesystem state and a request to a run result.
* Fallible external calls are modelled as `Except String`: the Python code
  wraps them in one `try`/`except` whose handler flashes the exception
  message.
* The files on disk (upload folder, generated folder) are association
  lists keyed by filename where writing an existing key overwrites, and
  the consent CSV is `Option (List (List String))` (`none` = the file
  does not exist yet, matching `Path(CONSENT_LOG).exists()`).
-/

namespace VoiceCloning

/-- `ALLOWED_EXTENSIONS = {"wav", "mp3"}` from app.py. -/
def ALLOWED_EXTENSIONS : List String := ["wav", "mp3"]

/-- The CSV header row written by `log_consent` in app.py. -/
def CONSENT_LOG_HEADER : List String :=
  ["timestamp", "requester_email", "speaker_name", "uploaded_filename", "client_ip"]

/-- The characters after the last dot of a character list: the value of
Python's `filename.rsplit(".", 1)[1]` when `"." in filename` holds. -/
def after_last_dot (l : List Char) : List Char :=
  ((l.reverse.takeWhile (fun c => c != '.')).reverse)

/-- `allowed_file` from app.py:
`"." in filename and filename.rsplit(".", 1)[1].lower() in ALLOWED_EXTENSIONS`.
Python's `str.lower` is modelled per character by `Char.toLower`. -/
def allowed_file (filename : String) : Bool :=
  filename.data.contains '.' &&
    ALLOWED_EXTENSIONS.contains (String.mk ((after_last_dot filename.data).map Char.toLower))

/-- `prepend_marker` from app.py. -/
def prepend_marker (text : String) : String :=
  "SYNTHETIC VOICE — GENERATED. " ++ text

/-- `log_consent` from app.py. The CSV file is `none` when it does not
exist (`write_header = not Path(CONSENT_LOG).exists()`), otherwise the
list of its rows. `timestamp` is the value of `datetime.datetime.utcnow().isoformat()`,
passed explicitly since the clock is external. Opening with mode `"a"`
creates the file, writes the header exactly when it was absent, then
appends the one data row. -/
def log_consent (speaker_name requester_email filename ip : String) (timestamp : String)
    (ledger : Option (List (List String))) : List (List String) :=
  let row := [timestamp, requester_email, speaker_name, filename, ip]
  match ledger with
  | none => [CONSENT_LOG_HEADER, row]
  | some rows => rows ++ [row]

/-- A directory on disk: filename to file content. Writing an existing
name replaces the old content (POSIX file overwrite). -/
abbrev Store (α : Type) := List (String × α)

/-- Write `v` at key `k`, overwriting any previous entry for `k`. -/
def store_set {α : Type} (m : Store α) (k : String) (v : α) : Store α :=
  m.filter (fun p => p.1 != k) ++ [(k, v)]

/-- Read the content stored at key `k`. -/
def store_get {α : Type} (m : Store α) (k : String) : Option α :=
  (m.find? (fun p => p.1 == k)).map Prod.snd

/-- External collaborators of the pipeline, fixed for one request:
werkzeug's `secure_filename` (an uninterpreted deterministic sanitizer),
Resemblyzer's `preprocess_wav` and `embed_utterance`, pyttsx3's
`save_to_file`+`runAndWait` (as a function from the text to the waveform
written), the UTC clock reading and `request.remote_addr`. A raised
Python exception is `Except.error` carrying `str(e)`. -/
structure Env where
  secure_filename : String → String
  preprocess_wav : List Int → Except String (List Int)
  embed_utterance : List Int → Except String (List Int)
  tts_save : String → Except String (List Int)
  timestamp : String
  remote_addr : String

/-- One POST submission as the handler reads it from `request`:
`hasFilePart` is `"file" in request.files`; `filename` is `file.filename`;
`audio` the uploaded bytes; `text` is `request.form.get("text", "")`;
`consent` and `not_public` are `request.form.get(...)` (`none` when the
field is absent); `speaker_name` and `requester_email` are the submitted
field values. -/
structure Request where
  hasFilePart : Bool
  filename : String
  audio : List Int
  text : String
  consent : Option String
  not_public : Option String
  speaker_name : String
  requester_email : String
  deriving DecidableEq

/-- The mutable filesystem state crossing requests: the uploads folder,
the consent CSV, and the generated folder. -/
structure St where
  uploads : Store (List Int)
  ledger : Option (List (List String))
  generated : Store (List Int)
  deriving DecidableEq

/-- The state at process start in a fresh directory. -/
def initSt : St := ⟨[], none, []⟩

/-- What the caller sees: the flashed messages and the `generated_file`
value rendered into the page (the artifact link). -/
structure Response where
  messages : List String
  generated_file : Option String
  deriving DecidableEq

/-- Result of one handler run: the new filesystem state, the caller-visible
response, and instrumentation of the external calls — how many times
`preprocess_wav` was entered, how many times `generate_audio` was entered,
and the text passed to `generate_audio` when it was called. -/
structure RunResult where
  st : St
  resp : Response
  extract_calls : Nat
  tts_calls : Nat
  tts_input : Option String
  deriving DecidableEq

/-- An early `flash(msg); return redirect(request.url)` exit: no state
change, no external call. -/
def reject (st : St) (msg : String) : RunResult :=
  ⟨st, ⟨[msg], none⟩, 0, 0, none⟩

/-- The body of `index` after all validation checks passed (app.py lines
149-164): save the upload, append the consent row, then inside `try`:
`preprocess_wav`, `embed_utterance`, `prepend_marker`, `generate_audio`;
the `except` handler flashes `f"Error during synthesis: {e}"`. -/
def process_accepted (env : Env) (st : St) (req : Request) : RunResult :=
  let filename := env.secure_filename req.filename
  let st1 : St := { st with uploads := store_set st.uploads filename req.audio }
  let st2 : St := { st1 with
    ledger := some (log_consent req.speaker_name req.requester_email filename
      env.remote_addr env.timestamp st1.ledger) }
  match env.preprocess_wav req.audio with
  | .error e => ⟨st2, ⟨["Error during synthesis: " ++ e], none⟩, 1, 0, none⟩
  | .ok wav =>
    match env.embed_utterance wav with
    | .error e => ⟨st2, ⟨["Error during synthesis: " ++ e], none⟩, 1, 0, none⟩
    | .ok _embed =>
      let final_text := prepend_marker req.text
      let output_name := filename ++ "_synth.wav"
      match env.tts_save final_text with
      | .error e => ⟨st2, ⟨["Error during synthesis: " ++ e], none⟩, 1, 1, some final_text⟩
      | .ok wave =>
        ⟨{ st2 with generated := store_set st2.generated output_name wave },
         ⟨["Processing Done."], some output_name⟩, 1, 1, some final_text⟩

/-- The POST branch of the Flask `index` route (app.py lines 124-165):
the six early-return validation checks in source order, then the
accepted-path body. -/
def index (env : Env) (st : St) (req : Request) : RunResult :=
  if req.hasFilePart = false then reject st "No file part"
  else if req.filename = "" then reject st "No selected file"
  else if allowed_file req.filename = false then reject st "Invalid file type. Only wav/mp3 allowed."
  else if req.text.length = 0 ∨ req.text.length > 500 then
    reject st "Text is required and must be <= 500 chars."
  else if req.consent ≠ some "yes" then reject st "Consent checkbox must be checked."
  else if req.not_public ≠ some "yes" then reject st "Cannot process public figure voices."
  else process_accepted env st req

/-- The submission passes all six server-side validation checks of `index`. -/
def passes_validation (req : Request) : Prop :=
  req.hasFilePart = true ∧ req.filename ≠ "" ∧ allowed_file req.filename = true ∧
    req.text.length ≠ 0 ∧ req.text.length ≤ 500 ∧
    req.consent = some "yes" ∧ req.not_public = some "yes"

instance (req : Request) : Decidable (passes_validation req) := by
  unfold passes_validation; infer_instance

/-- The validator as a first-failure function: the six checks in source
order, reporting only the first failed check's message, `none` on
acceptance. This is the spec-side description of the validator used for
the refinement statements below. -/
def validator_first_error (req : Request) : Option String :=
  if req.hasFilePart = false then some "No file part"
  else if req.filename = "" then some "No selected file"
  else if allowed_file req.filename = false then some "Invalid file type. Only wav/mp3 allowed."
  else if req.text.length = 0 ∨ req.text.length > 500 then
    some "Text is required and must be <= 500 chars."
  else if req.consent ≠ some "yes" then some "Consent checkbox must be checked."
  else if req.not_public ≠ some "yes" then some "Cannot process public figure voices."
  else none

theorem index_validation_cases (env : Env) (st : St) (req : Request) :
    (∃ m, validator_first_error req = some m ∧ index env st req = reject st m) ∨
      (validator_first_error req = none ∧ index env st req = process_accepted env st req) := by
  unfold index validator_first_error
  split_ifs <;> simp

theorem validator_first_error_none_iff (req : Request) :
    validator_first_error req = none ↔ passes_validation req := by
  unfold validator_first_error passes_validation
  split_ifs with h1 h2 h3 h4 h5 h6 <;> simp_all <;> omega

theorem index_of_not_validated (env : Env) (st : St) (req : Request)
    (h : ¬ passes_validation req) :
    ∃ m, validator_first_error req = some m ∧ index env st req = reject st m := by
  rcases index_validation_cases env st req with hc | ⟨hn, _⟩
  · exact hc
  · exact absurd ((validator_first_error_none_iff req).mp hn) h

theorem index_of_validated (env : Env) (st : St) (req : Request)
    (h : passes_validation req) :
    index env st req = process_accepted env st req := by
  rcases index_validation_cases env st req with ⟨m, hm, _⟩ | ⟨_, he⟩
  · rw [(validator_first_error_none_iff req).mpr h] at hm
    exact absurd hm (by simp)
  · exact he

/-- The filesystem state right after the upload is saved and the consent
row appended, before the `try` block runs. -/
def after_consent (env : Env) (st : St) (req : Request) : St :=
  { uploads := store_set st.uploads (env.secure_filename req.filename) req.audio
    ledger := some (log_consent req.speaker_name req.requester_email
      (env.secure_filename req.filename) env.remote_addr env.timestamp st.ledger)
    generated := st.generated }

theorem process_accepted_extract_error (env : Env) (st : St) (req : Request) (e : String)
    (hx : env.preprocess_wav req.audio = .error e) :
    process_accepted env st req =
      ⟨after_consent env st req, ⟨["Error during synthesis: " ++ e], none⟩, 1, 0, none⟩ := by
  unfold process_accepted after_consent
  simp only [hx]

theorem process_accepted_embed_error (env : Env) (st : St) (req : Request)
    (wav : List Int) (e : String)
    (hx : env.preprocess_wav req.audio = .ok wav)
    (he : env.embed_utterance wav = .error e) :
    process_accepted env st req =
      ⟨after_consent env st req, ⟨["Error during synthesis: " ++ e], none⟩, 1, 0, none⟩ := by
  unfold process_accepted after_consent
  simp only [hx, he]

theorem process_accepted_tts_error (env : Env) (st : St) (req : Request)
    (wav em : List Int) (e : String)
    (hx : env.preprocess_wav req.audio = .ok wav)
    (he : env.embed_utterance wav = .ok em)
    (ht : env.tts_save (prepend_marker req.text) = .error e) :
    process_accepted env st req =
      ⟨after_consent env st req, ⟨["Error during synthesis: " ++ e], none⟩, 1, 1,
        some (prepend_marker req.text)⟩ := by
  unfold process_accepted after_consent
  simp only [hx, he, ht]

theorem process_accepted_success (env : Env) (st : St) (req : Request)
    (wav em wave : List Int)
    (hx : env.preprocess_wav req.audio = .ok wav)
    (he : env.embed_utterance wav = .ok em)
    (ht : env.tts_save (prepend_marker req.text) = .ok wave) :
    process_accepted env st req =
      ⟨{ after_consent env st req with
          generated := store_set st.generated
            (env.secure_filename req.filename ++ "_synth.wav") wave },
       ⟨["Processing Done."], some (env.secure_filename req.filename ++ "_synth.wav")⟩,
       1, 1, some (prepend_marker req.text)⟩ := by
  unfold process_accepted after_consent
  simp only [hx, he, ht]

theorem find?_key_append_last {α : Type} (l : List (String × α)) (k : String) (v : α)
    (h : ∀ p ∈ l, (p.1 == k) = false) :
    List.find? (fun p => p.1 == k) (l ++ [(k, v)]) = some (k, v) := by
  induction l with
  | nil => simp [List.find?]
  | cons a l ih =>
    rw [List.cons_append]
    simp only [List.find?_cons, h a (List.mem_cons_self a l)]
    exact ih (fun p hp => h p (List.mem_cons_of_mem a hp))

theorem store_get_set_same {α : Type} (m : Store α) (k : String) (v : α) :
    store_get (store_set m k v) k = some v := by
  unfold store_get store_set
  rw [find?_key_append_last]
  · rfl
  · intro p hp
    have hb := List.of_mem_filter hp
    simpa using hb

theorem store_set_count_one {α : Type} (m : Store α) (k : String) (v : α) :
    (store_set m k v).countP (fun p => p.1 == k) = 1 := by
  unfold store_set
  rw [List.countP_append]
  have h0 : (m.filter (fun p => p.1 != k)).countP (fun p => p.1 == k) = 0 := by
    rw [List.countP_eq_zero]
    intro p hp
    have := List.of_mem_filter hp
    simp_all
  simp [h0, List.countP_cons]

theorem mem_store_set {α : Type} {m : Store α} {k : String} {v : α} {p : String × α}
    (h : p ∈ store_set m k v) : p ∈ m ∨ p = (k, v) := by
  unfold store_set at h
  rcases List.mem_append.mp h with h | h
  · exact Or.inl (List.mem_of_mem_filter h)
  · simp at h
    exact Or.inr (by cases p; simp_all)

/-- The rows of the consent CSV, empty when the file does not exist. -/
def ledgerRows : Option (List (List String)) → List (List String)
  | none => []
  | some rows => rows

theorem mem_log_consent_of_mem (s q f ip ts : String) (l : Option (List (List String)))
    (r : List String) (h : r ∈ ledgerRows l) :
    r ∈ log_consent s q f ip ts l := by
  cases l with
  | none => simp [ledgerRows] at h
  | some rows =>
    simp only [ledgerRows] at h
    simp [log_consent, h]

theorem log_consent_row_mem (s q f ip ts : String) (l : Option (List (List String))) :
    [ts, q, s, f, ip] ∈ log_consent s q f ip ts l := by
  cases l <;> simp [log_consent]

/-- States reachable from process start through any sequence of POST
submissions, each with its own environment (clock reading, client
address, external library behavior). -/
inductive Reachable : St → Prop
  | init : Reachable initSt
  | step (env : Env) (st : St) (req : Request) :
      Reachable st → Reachable (index env st req).st

theorem generated_covered (st : St) (h : Reachable st) :
    ∀ p : String × List Int, p ∈ st.generated →
      ∃ fname, p.1 = fname ++ "_synth.wav" ∧
        ∃ row ∈ ledgerRows st.ledger, row.get? 3 = some fname := by
  induction h with
  | init => intro p hp; simp [initSt] at hp
  | step env st req hr ih =>
    intro p hp
    by_cases hv : passes_validation req
    · rw [index_of_validated env st req hv] at hp ⊢
      cases hx : env.preprocess_wav req.audio with
      | error e =>
        rw [process_accepted_extract_error env st req e hx] at hp ⊢
        obtain ⟨fn, h1, row, h2, h3⟩ := ih p hp
        exact ⟨fn, h1, row, mem_log_consent_of_mem _ _ _ _ _ _ _ h2, h3⟩
      | ok wav =>
        cases he : env.embed_utterance wav with
        | error e =>
          rw [process_accepted_embed_error env st req wav e hx he] at hp ⊢
          obtain ⟨fn, h1, row, h2, h3⟩ := ih p hp
          exact ⟨fn, h1, row, mem_log_consent_of_mem _ _ _ _ _ _ _ h2, h3⟩
        | ok em =>
          cases ht : env.tts_save (prepend_marker req.text) with
          | error e =>
            rw [process_accepted_tts_error env st req wav em e hx he ht] at hp ⊢
            obtain ⟨fn, h1, row, h2, h3⟩ := ih p hp
            exact ⟨fn, h1, row, mem_log_consent_of_mem _ _ _ _ _ _ _ h2, h3⟩
          | ok wave =>
            rw [process_accepted_success env st req wav em wave hx he ht] at hp ⊢
            rcases mem_store_set hp with hmem | hnew
            · obtain ⟨fn, h1, row, h2, h3⟩ := ih p hmem
              exact ⟨fn, h1, row, mem_log_consent_of_mem _ _ _ _ _ _ _ h2, h3⟩
            · refine ⟨env.secure_filename req.filename, by rw [hnew], ?_⟩
              refine ⟨[env.timestamp, req.requester_email, req.speaker_name,
                env.secure_filename req.filename, env.remote_addr], ?_, rfl⟩
              simpa [after_consent, ledgerRows] using
                log_consent_row_mem req.speaker_name req.requester_email
                  (env.secure_filename req.filename) env.remote_addr env.timestamp st.ledger
    · obtain ⟨m, _, heq⟩ := index_of_not_validated env st req hv
      rw [heq] at hp ⊢
      obtain ⟨fn, h1, row, h2, h3⟩ := ih p hp
      exact ⟨fn, h1, row, h2, h3⟩

/-- The consent CSV states reachable from a missing file through any
sequence of `log_consent` calls (paired with the data rows appended so
far). Restarting the process does not change the file, so this also
models any number of restarts. -/
inductive LedgerReach : Option (List (List String)) → List (List String) → Prop
  | init : LedgerReach none []
  | step (s q f ip ts : String) (l : Option (List (List String))) (rows : List (List String)) :
      LedgerReach l rows →
      LedgerReach (some (log_consent s q f ip ts l)) (rows ++ [[ts, q, s, f, ip]])

theorem ledgerReach_shape (l : Option (List (List String))) (rows : List (List String))
    (h : LedgerReach l rows) :
    (l = none ∧ rows = []) ∨ l = some (CONSENT_LOG_HEADER :: rows) := by
  induction h with
  | init => exact Or.inl ⟨rfl, rfl⟩
  | step s q f ip ts l rows hr ih =>
    rcases ih with ⟨hl, hrows⟩ | hl
    · subst hl; subst hrows
      exact Or.inr (by simp [log_consent])
    · subst hl
      exact Or.inr (by simp [log_consent])

/-- A concrete environment where every external call succeeds; the
waveform the engine writes is the length of the text it was given, so
generated content varies with the text. -/
def envOk : Env :=
  { secure_filename := fun s => s
    preprocess_wav := fun a => .ok a
    embed_utterance := fun _ => .ok [7]
    tts_save := fun t => .ok [Int.ofNat t.length]
    timestamp := "2026-01-01T00:00:00"
    remote_addr := "127.0.0.1" }

/-- Environment whose `preprocess_wav` raises (undecodable reference audio). -/
def envExtractFail : Env := { envOk with preprocess_wav := fun _ => .error "boom" }

/-- Environment whose synthesis call raises. -/
def envTtsFail : Env := { envOk with tts_save := fun _ => .error "boom" }

/-- A fully valid submission. -/
def reqOk : Request :=
  { hasFilePart := true, filename := "sample.wav", audio := [1, 2, 3],
    text := "Hello there", consent := some "yes", not_public := some "yes",
    speaker_name := "Alice", requester_email := "alice@example.com" }

/-- Valid submission except that speaker_name and requester_email are empty. -/
def reqNoName : Request := { reqOk with speaker_name := "", requester_email := "" }

/-- A submission with the consent checkbox unchecked. -/
def reqNoConsent : Request := { reqOk with consent := none }

/-- A second valid submission reusing the same reference filename with
different text and different audio content. -/
def reqB : Request := { reqOk with text := "Goodbye", audio := [9] }

theorem takeWhile_append_stop {p : Char → Bool} (l1 l2 : List Char) (a : Char)
    (h : ∀ c ∈ l1, p c = true) (ha : p a = false) :
    (l1 ++ a :: l2).takeWhile p = l1 := by
  induction l1 with
  | nil => simp [List.takeWhile_cons, ha]
  | cons x xs ih =>
    rw [List.cons_append]
    simp only [List.takeWhile_cons, h x (List.mem_cons_self x xs), if_true]
    rw [ih (fun c hc => h c (List.mem_cons_of_mem x hc))]

theorem after_last_dot_spec (base ext : List Char) (h : '.' ∉ ext) :
    after_last_dot (base ++ '.' :: ext) = ext := by
  unfold after_last_dot
  rw [List.reverse_append, List.reverse_cons, List.append_assoc, List.singleton_append]
  rw [takeWhile_append_stop]
  · exact List.reverse_reverse ext
  · intro c hc
    have hm : c ∈ ext := List.mem_reverse.mp hc
    simp only [bne_iff_ne, ne_eq, decide_eq_true_eq]
    intro hceq
    exact h (hceq ▸ hm)
  · simp

/-- C9: the extension check is case-insensitive over {wav, mp3}: a
filename `base ++ "." ++ ext` whose extension `ext` (the final
dot-separated segment) lowercases to "wav" or "mp3" is accepted and any
other extension is rejected; in particular "REC.WAV" is accepted and
"REC.WAVX" is rejected. -/
theorem extension_check_case_insensitive :
    (∀ base ext : List Char, '.' ∉ ext →
      allowed_file (String.mk (base ++ '.' :: ext)) =
        ALLOWED_EXTENSIONS.contains (String.mk (ext.map Char.toLower))) ∧
    allowed_file "REC.WAV" = true ∧ allowed_file "REC.WAVX" = false := by
  refine ⟨?_, by decide, by decide⟩
  intro base ext h
  unfold allowed_file
  rw [show (String.mk (base ++ '.' :: ext)).data = base ++ '.' :: ext from rfl]
  rw [after_last_dot_spec base ext h]
  have hc : (base ++ '.' :: ext).contains '.' = true := by
    simp [List.contains]
  rw [hc, Bool.true_and]

/-- Witness for C9 at the filename "REC.WAV" split as "REC" and "WAV". -/
theorem extension_check_case_insensitive_witness :
    ('.' ∉ ['W', 'A', 'V']) ∧
    allowed_file (String.mk (['R', 'E', 'C'] ++ '.' :: ['W', 'A', 'V'])) =
      ALLOWED_EXTENSIONS.contains (String.mk (['W', 'A', 'V'].map Char.toLower)) := by
  exact ⟨by decide,
    extension_check_case_insensitive.1 ['R', 'E', 'C'] ['W', 'A', 'V'] (by decide)⟩

theorem process_accepted_ledger (env : Env) (st : St) (req : Request) :
    (process_accepted env st req).st.ledger =
      some (log_consent req.speaker_name req.requester_email
        (env.secure_filename req.filename) env.remote_addr env.timestamp st.ledger) := by
  cases hx : env.preprocess_wav req.audio with
  | error e => rw [process_accepted_extract_error env st req e hx]; rfl
  | ok wav =>
    cases he : env.embed_utterance wav with
    | error e => rw [process_accepted_embed_error env st req wav e hx he]; rfl
    | ok em =>
      cases ht : env.tts_save (prepend_marker req.text) with
      | error e => rw [process_accepted_tts_error env st req wav em e hx he ht]; rfl
      | ok wave => rw [process_accepted_success env st req wav em wave hx he ht]; rfl

/-- C1: whenever the synthesis engine is invoked, the text it receives is
the fixed disclosure string concatenated with the submitted text — for
every request, so no request parameter can suppress or alter the prefix —
and every produced artifact's content is the engine's output on that
marked text. -/
theorem disclosure_always_prepended (env : Env) (st : St) (req : Request) :
    (∀ t, (index env st req).tts_input = some t →
      t = "SYNTHETIC VOICE — GENERATED. " ++ req.text) ∧
    (∀ f, (index env st req).resp.generated_file = some f →
      ∃ w, env.tts_save ("SYNTHETIC VOICE — GENERATED. " ++ req.text) = .ok w ∧
        store_get (index env st req).st.generated f = some w) := by
  by_cases hv : passes_validation req
  · rw [index_of_validated env st req hv]
    cases hx : env.preprocess_wav req.audio with
    | error e =>
      rw [process_accepted_extract_error env st req e hx]
      exact ⟨fun t ht => by simp at ht, fun f hf => by simp at hf⟩
    | ok wav =>
      cases he : env.embed_utterance wav with
      | error e =>
        rw [process_accepted_embed_error env st req wav e hx he]
        exact ⟨fun t ht => by simp at ht, fun f hf => by simp at hf⟩
      | ok em =>
        cases ht : env.tts_save (prepend_marker req.text) with
        | error e =>
          rw [process_accepted_tts_error env st req wav em e hx he ht]
          refine ⟨fun t hti => ?_, fun f hf => by simp at hf⟩
          simpa [prepend_marker] using hti.symm
        | ok wave =>
          rw [process_accepted_success env st req wav em wave hx he ht]
          refine ⟨fun t hti => ?_, fun f hf => ?_⟩
          · simpa [prepend_marker] using hti.symm
          · refine ⟨wave, by simpa [prepend_marker] using ht, ?_⟩
            have hfe : f = env.secure_filename req.filename ++ "_synth.wav" := by
              simpa using hf.symm
            rw [hfe]
            exact store_get_set_same st.generated _ wave
  · obtain ⟨m, _, heq⟩ := index_of_not_validated env st req hv
    rw [heq]
    exact ⟨fun t ht => by simp [reject] at ht, fun f hf => by simp [reject] at hf⟩

/-- Witness for C1 at a concrete accepted request. -/
theorem disclosure_always_prepended_witness :
    "SYNTHETIC VOICE — GENERATED. Hello there" =
      "SYNTHETIC VOICE — GENERATED. " ++ reqOk.text ∧
    (∃ w, envOk.tts_save ("SYNTHETIC VOICE — GENERATED. " ++ reqOk.text) = .ok w ∧
      store_get (index envOk initSt reqOk).st.generated "sample.wav_synth.wav" = some w) := by
  exact ⟨(disclosure_always_prepended envOk initSt reqOk).1
      "SYNTHETIC VOICE — GENERATED. Hello there" (by decide),
    (disclosure_always_prepended envOk initSt reqOk).2 "sample.wav_synth.wav" (by decide)⟩

/-- C4: a submission failing any validation check leaves the entire
filesystem state untouched — no upload saved, no consent row appended,
no artifact written — and neither feature extraction nor synthesis is
attempted. -/
theorem rejected_no_side_effects (env : Env) (st : St) (req : Request)
    (h : ¬ passes_validation req) :
    (index env st req).st = st ∧
    (index env st req).st.uploads = st.uploads ∧
    (index env st req).st.ledger = st.ledger ∧
    (index env st req).st.generated = st.generated ∧
    (index env st req).extract_calls = 0 ∧
    (index env st req).tts_calls = 0 ∧
    (index env st req).resp.generated_file = none := by
  obtain ⟨m, _, heq⟩ := index_of_not_validated env st req h
  rw [heq]
  exact ⟨rfl, rfl, rfl, rfl, rfl, rfl, rfl⟩

/-- Witness for C4 at a submission with the consent checkbox unchecked. -/
theorem rejected_no_side_effects_witness :
    ¬ passes_validation reqNoConsent ∧
    (index envOk initSt reqNoConsent).st = initSt ∧
    (index envOk initSt reqNoConsent).tts_calls = 0 :=
  ⟨by decide, (rejected_no_side_effects envOk initSt reqNoConsent (by decide)).1,
    (rejected_no_side_effects envOk initSt reqNoConsent (by decide)).2.2.2.2.2.1⟩

/-- C2: a validation failure leaves the consent ledger unchanged (no
ConsentRecord without validation having passed); a validation success
appends exactly the one consent row before any synthesis attempt — the
ledger value does not depend on the outcome of extraction or synthesis,
so the record exists even when synthesis subsequently fails; and in every
reachable state each generated artifact `fname ++ "_synth.wav"` has a
ledger row whose uploaded_filename column is `fname`. -/
theorem consent_gating_invariants :
    (∀ env st req, ¬ passes_validation req → (index env st req).st.ledger = st.ledger) ∧
    (∀ env st req, passes_validation req →
      (index env st req).st.ledger =
        some (log_consent req.speaker_name req.requester_email
          (env.secure_filename req.filename) env.remote_addr env.timestamp st.ledger)) ∧
    (∀ st, Reachable st → ∀ p : String × List Int, p ∈ st.generated →
      ∃ fname, p.1 = fname ++ "_synth.wav" ∧
        ∃ row ∈ ledgerRows st.ledger, row.get? 3 = some fname) := by
  refine ⟨?_, ?_, generated_covered⟩
  · intro env st req h
    obtain ⟨m, _, heq⟩ := index_of_not_validated env st req h
    rw [heq]
    rfl
  · intro env st req h
    rw [index_of_validated env st req h]
    exact process_accepted_ledger env st req

/-- Witness for C2: a rejected submission, an accepted one, and the
artifact it produces in a reachable state. -/
theorem consent_gating_invariants_witness :
    (index envOk initSt reqNoConsent).st.ledger = initSt.ledger ∧
    (index envOk initSt reqOk).st.ledger =
      some (log_consent reqOk.speaker_name reqOk.requester_email
        (envOk.secure_filename reqOk.filename) envOk.remote_addr envOk.timestamp
        initSt.ledger) ∧
    (∃ fname, ("sample.wav_synth.wav", ([40] : List Int)).1 = fname ++ "_synth.wav" ∧
      ∃ row ∈ ledgerRows (index envOk initSt reqOk).st.ledger,
        row.get? 3 = some fname) := by
  refine ⟨consent_gating_invariants.1 envOk initSt reqNoConsent (by decide),
    consent_gating_invariants.2.1 envOk initSt reqOk (by decide),
    consent_gating_invariants.2.2 (index envOk initSt reqOk).st
      (Reachable.step envOk initSt reqOk Reachable.init)
      ("sample.wav_synth.wav", [40]) (by decide)⟩

/-- C3 counterexample: a submission whose speaker_name and
requester_email are both empty but whose other fields are valid is NOT
rejected: validation passes, the handler appends a consent row and
completes synthesis. The claimed non-emptiness check does not exist in
the code. -/
theorem validator_name_check_counterexample :
    reqNoName.speaker_name = "" ∧ reqNoName.requester_email = "" ∧
    passes_validation reqNoName ∧
    (index envOk initSt reqNoName).resp.messages = ["Processing Done."] ∧
    (index envOk initSt reqNoName).st.ledger ≠ initSt.ledger := by
  exact ⟨rfl, rfl, by decide, by decide, by decide⟩

/-- C3 amended: the validator performs, in source order and stopping at
the first failure with a single message, the checks: file part present,
filename non-empty, extension ∈ {wav, mp3} (case-insensitive), text
length ∈ [1,500], consent flag affirmative, not-public flag affirmative.
It never inspects speaker_name or requester_email, so submissions with
empty values for those fields pass validation. -/
theorem validator_first_failure_amended :
    (∀ env st req m, validator_first_error req = some m →
      index env st req = reject st m) ∧
    (∀ req s e, validator_first_error
      { req with speaker_name := s, requester_email := e } =
        validator_first_error req) ∧
    (∀ req, validator_first_error req = none ↔ passes_validation req) := by
  refine ⟨?_, fun req s e => rfl, validator_first_error_none_iff⟩
  intro env st req m hm
  rcases index_validation_cases env st req with ⟨m2, hm2, heq⟩ | ⟨hn, _⟩
  · rw [hm] at hm2
    cases hm2
    exact heq
  · rw [hm] at hn
    cases hn

/-- Witness for C3 amended: first-failure reporting at an unchecked
consent box, and name-field irrelevance at the valid request. -/
theorem validator_first_failure_amended_witness :
    index envOk initSt reqNoConsent = reject initSt "Consent checkbox must be checked." ∧
    validator_first_error { reqOk with speaker_name := "", requester_email := "" } =
      validator_first_error reqOk ∧
    (validator_first_error reqOk = none ↔ passes_validation reqOk) :=
  ⟨validator_first_failure_amended.1 envOk initSt reqNoConsent
      "Consent checkbox must be checked." (by decide),
    validator_first_failure_amended.2.1 reqOk "" "",
    validator_first_failure_amended.2.2 reqOk⟩

/-- C5 counterexample: with the same exception text, a failed extraction
and a failed synthesis produce identical caller-visible responses — both
are flashed as "Error during synthesis: ..." — so extraction failures are
not reported as a class distinct from synthesis failures, even though the
first run never invoked the engine and the second did. -/
theorem extraction_report_counterexample :
    (index envExtractFail initSt reqOk).resp = (index envTtsFail initSt reqOk).resp ∧
    (index envExtractFail initSt reqOk).tts_calls = 0 ∧
    (index envTtsFail initSt reqOk).tts_calls = 1 ∧
    (index envExtractFail initSt reqOk).resp.messages = ["Error during synthesis: boom"] := by
  exact ⟨by decide, by decide, by decide, by decide⟩

/-- C5 amended: when `preprocess_wav` fails on the reference audio, the
pipeline aborts before invoking synthesis (the engine is never called and
no artifact is written), but the failure is reported with the same
generic "Error during synthesis: ..." message used for synthesis
failures rather than as a distinct ExtractionFailure class. -/
theorem extraction_aborts_before_synthesis (env : Env) (st : St) (req : Request) (e : String)
    (h : passes_validation req)
    (hx : env.preprocess_wav req.audio = .error e) :
    (index env st req).tts_calls = 0 ∧
    (index env st req).tts_input = none ∧
    (index env st req).resp.generated_file = none ∧
    (index env st req).st.generated = st.generated ∧
    (index env st req).resp.messages = ["Error during synthesis: " ++ e] := by
  rw [index_of_validated env st req h, process_accepted_extract_error env st req e hx]
  exact ⟨rfl, rfl, rfl, rfl, rfl⟩

/-- Witness for C5 amended at a concrete undecodable upload. -/
theorem extraction_aborts_before_synthesis_witness :
    (index envExtractFail initSt reqOk).tts_calls = 0 ∧
    (index envExtractFail initSt reqOk).resp.generated_file = none ∧
    (index envExtractFail initSt reqOk).resp.messages = ["Error during synthesis: " ++ "boom"] :=
  ⟨(extraction_aborts_before_synthesis envExtractFail initSt reqOk "boom"
      (by decide) rfl).1,
    (extraction_aborts_before_synthesis envExtractFail initSt reqOk "boom"
      (by decide) rfl).2.2.1,
    (extraction_aborts_before_synthesis envExtractFail initSt reqOk "boom"
      (by decide) rfl).2.2.2.2⟩

/-- C6: `log_consent` appends exactly one data row per call; it writes
the header exactly when the file does not yet exist; and any ledger file
built from a missing file by a sequence of `log_consent` calls (spanning
any number of process restarts, which do not alter the file) consists of
the header exactly once, first, followed by exactly the appended data
rows in order. -/
theorem ledger_one_row_header_once :
    (∀ s q f ip ts L, log_consent s q f ip ts (some L) = L ++ [[ts, q, s, f, ip]]) ∧
    (∀ s q f ip ts, log_consent s q f ip ts none =
      [CONSENT_LOG_HEADER, [ts, q, s, f, ip]]) ∧
    (∀ l rows, LedgerReach l rows →
      (l = none ∧ rows = []) ∨ l = some (CONSENT_LOG_HEADER :: rows)) :=
  ⟨fun _ _ _ _ _ _ => rfl, fun _ _ _ _ _ => rfl, ledgerReach_shape⟩

/-- Witness for C6: two consecutive appends starting from a missing file. -/
theorem ledger_one_row_header_once_witness :
    log_consent "Bob" "bob@example.com" "b.wav" "10.0.0.1" "t2"
        (some [CONSENT_LOG_HEADER, ["t1", "alice@example.com", "Alice", "sample.wav", "127.0.0.1"]]) =
      [CONSENT_LOG_HEADER, ["t1", "alice@example.com", "Alice", "sample.wav", "127.0.0.1"]] ++
        [["t2", "bob@example.com", "Bob", "b.wav", "10.0.0.1"]] ∧
    log_consent "Alice" "alice@example.com" "sample.wav" "127.0.0.1" "t1" none =
      [CONSENT_LOG_HEADER, ["t1", "alice@example.com", "Alice", "sample.wav", "127.0.0.1"]] ∧
    ((some (log_consent "Bob" "bob@example.com" "b.wav" "10.0.0.1" "t2"
        (some (log_consent "Alice" "alice@example.com" "sample.wav" "127.0.0.1" "t1" none))) =
          none ∧
        ([["t1", "alice@example.com", "Alice", "sample.wav", "127.0.0.1"],
          ["t2", "bob@example.com", "Bob", "b.wav", "10.0.0.1"]] : List (List String)) = []) ∨
      some (log_consent "Bob" "bob@example.com" "b.wav" "10.0.0.1" "t2"
        (some (log_consent "Alice" "alice@example.com" "sample.wav" "127.0.0.1" "t1" none))) =
        some (CONSENT_LOG_HEADER ::
          [["t1", "alice@example.com", "Alice", "sample.wav", "127.0.0.1"],
            ["t2", "bob@example.com", "Bob", "b.wav", "10.0.0.1"]])) :=
  ⟨ledger_one_row_header_once.1 "Bob" "bob@example.com" "b.wav" "10.0.0.1" "t2"
      [CONSENT_LOG_HEADER, ["t1", "alice@example.com", "Alice", "sample.wav", "127.0.0.1"]],
    ledger_one_row_header_once.2.1 "Alice" "alice@example.com" "sample.wav" "127.0.0.1" "t1",
    ledger_one_row_header_once.2.2 _ _
      (LedgerReach.step "Bob" "bob@example.com" "b.wav" "10.0.0.1" "t2" _ _
        (LedgerReach.step "Alice" "alice@example.com" "sample.wav" "127.0.0.1" "t1" _ _
          LedgerReach.init))⟩

/-- C7: when the synthesis call raises, the failure is flashed to the
caller, the consent row written before the attempt is still in the
ledger (the ledger equals exactly the pre-request ledger plus that one
row), exactly one synthesis attempt was made with no retry, and no
artifact is produced; the handler returns normally. -/
theorem synthesis_failure_handling (env : Env) (st : St) (req : Request)
    (wav em : List Int) (e : String)
    (h : passes_validation req)
    (hx : env.preprocess_wav req.audio = .ok wav)
    (he : env.embed_utterance wav = .ok em)
    (ht : env.tts_save (prepend_marker req.text) = .error e) :
    (index env st req).resp.messages = ["Error during synthesis: " ++ e] ∧
    (index env st req).st.ledger =
      some (log_consent req.speaker_name req.requester_email
        (env.secure_filename req.filename) env.remote_addr env.timestamp st.ledger) ∧
    (index env st req).tts_calls = 1 ∧
    (index env st req).resp.generated_file = none ∧
    (index env st req).st.generated = st.generated := by
  rw [index_of_validated env st req h,
    process_accepted_tts_error env st req wav em e hx he ht]
  exact ⟨rfl, rfl, rfl, rfl, rfl⟩

/-- Witness for C7 at a concrete failing engine. -/
theorem synthesis_failure_handling_witness :
    (index envTtsFail initSt reqOk).resp.messages = ["Error during synthesis: " ++ "boom"] ∧
    (index envTtsFail initSt reqOk).st.ledger =
      some (log_consent reqOk.speaker_name reqOk.requester_email
        (envTtsFail.secure_filename reqOk.filename) envTtsFail.remote_addr
        envTtsFail.timestamp initSt.ledger) ∧
    (index envTtsFail initSt reqOk).tts_calls = 1 ∧
    (index envTtsFail initSt reqOk).resp.generated_file = none :=
  ⟨(synthesis_failure_handling envTtsFail initSt reqOk [1, 2, 3] [7] "boom"
      (by decide) rfl rfl rfl).1,
    (synthesis_failure_handling envTtsFail initSt reqOk [1, 2, 3] [7] "boom"
      (by decide) rfl rfl rfl).2.1,
    (synthesis_failure_handling envTtsFail initSt reqOk [1, 2, 3] [7] "boom"
      (by decide) rfl rfl rfl).2.2.1,
    (synthesis_failure_handling envTtsFail initSt reqOk [1, 2, 3] [7] "boom"
      (by decide) rfl rfl rfl).2.2.2.1⟩

theorem index_success (env : Env) (st : St) (req : Request) (wav em wave : List Int)
    (h : passes_validation req)
    (hx : env.preprocess_wav req.audio = .ok wav)
    (he : env.embed_utterance wav = .ok em)
    (ht : env.tts_save (prepend_marker req.text) = .ok wave) :
    index env st req =
      ⟨{ after_consent env st req with
          generated := store_set st.generated
            (env.secure_filename req.filename ++ "_synth.wav") wave },
       ⟨["Processing Done."], some (env.secure_filename req.filename ++ "_synth.wav")⟩,
       1, 1, some (prepend_marker req.text)⟩ :=
  (index_of_validated env st req h).trans
    (process_accepted_success env st req wav em wave hx he ht)

/-- C8: the artifact name is the deterministic function
`sanitized-name ++ "_synth.wav"` of the sanitized uploaded filename; two
successful submissions with the same reference filename yield two
independent consent rows, while the second artifact write lands at the
same name and overwrites the first — one entry for that name holding the
second content, not an appended or versioned copy. -/
theorem artifact_name_and_overwrite (env : Env) (st : St) (req1 req2 : Request)
    (wav1 em1 wave1 wav2 em2 wave2 : List Int)
    (hf : req1.filename = req2.filename)
    (h1 : passes_validation req1) (h2 : passes_validation req2)
    (hx1 : env.preprocess_wav req1.audio = .ok wav1)
    (he1 : env.embed_utterance wav1 = .ok em1)
    (ht1 : env.tts_save (prepend_marker req1.text) = .ok wave1)
    (hx2 : env.preprocess_wav req2.audio = .ok wav2)
    (he2 : env.embed_utterance wav2 = .ok em2)
    (ht2 : env.tts_save (prepend_marker req2.text) = .ok wave2) :
    (index env st req1).resp.generated_file =
      some (env.secure_filename req1.filename ++ "_synth.wav") ∧
    (index env (index env st req1).st req2).resp.generated_file =
      some (env.secure_filename req1.filename ++ "_synth.wav") ∧
    (∃ rows1, (index env st req1).st.ledger = some rows1 ∧
      [env.timestamp, req1.requester_email, req1.speaker_name,
        env.secure_filename req1.filename, env.remote_addr] ∈ rows1 ∧
      (index env (index env st req1).st req2).st.ledger =
        some (rows1 ++ [[env.timestamp, req2.requester_email, req2.speaker_name,
          env.secure_filename req2.filename, env.remote_addr]])) ∧
    store_get (index env (index env st req1).st req2).st.generated
      (env.secure_filename req1.filename ++ "_synth.wav") = some wave2 ∧
    ((index env (index env st req1).st req2).st.generated.countP
      (fun p => p.1 == env.secure_filename req1.filename ++ "_synth.wav")) = 1 := by
  have e1 := index_success env st req1 wav1 em1 wave1 h1 hx1 he1 ht1
  simp only [after_consent] at e1
  rw [hf] at e1
  rw [hf, e1, index_success env _ req2 wav2 em2 wave2 h2 hx2 he2 ht2]
  refine ⟨rfl, rfl, ⟨_, rfl, log_consent_row_mem _ _ _ _ _ _, rfl⟩, ?_, ?_⟩
  · exact store_get_set_same _ _ _
  · exact store_set_count_one _ _ _

/-- Witness for C8: two successful submissions reusing "sample.wav". -/
theorem artifact_name_and_overwrite_witness :
    (index envOk initSt reqOk).resp.generated_file = some "sample.wav_synth.wav" ∧
    (index envOk (index envOk initSt reqOk).st reqB).resp.generated_file =
      some "sample.wav_synth.wav" ∧
    (∃ rows1, (index envOk initSt reqOk).st.ledger = some rows1 ∧
      [envOk.timestamp, reqOk.requester_email, reqOk.speaker_name,
        envOk.secure_filename reqOk.filename, envOk.remote_addr] ∈ rows1 ∧
      (index envOk (index envOk initSt reqOk).st reqB).st.ledger =
        some (rows1 ++ [[envOk.timestamp, reqB.requester_email, reqB.speaker_name,
          envOk.secure_filename reqB.filename, envOk.remote_addr]])) ∧
    store_get (index envOk (index envOk initSt reqOk).st reqB).st.generated
      "sample.wav_synth.wav" = some [36] ∧
    ((index envOk (index envOk initSt reqOk).st reqB).st.generated.countP
      (fun p => p.1 == "sample.wav_synth.wav")) = 1 :=
  artifact_name_and_overwrite envOk initSt reqOk reqB
    [1, 2, 3] [7] [40] [9] [7] [36] rfl (by decide) (by decide)
    rfl rfl rfl rfl rfl rfl

/-- C10: the synthesized output does not depend on the reference audio —
the speaker embedding is computed and discarded, and only the marked text
reaches the engine: two accepted requests with the same text whose
reference audios both decode pass the identical text to the engine, and
when both produce artifacts the artifact contents are identical, whatever
the two audio contents were. -/
theorem output_independent_of_reference_audio (env : Env) (st1 st2 : St)
    (req1 req2 : Request) (wav1 em1 wav2 em2 : List Int)
    (h1 : passes_validation req1) (h2 : passes_validation req2)
    (htxt : req1.text = req2.text)
    (hx1 : env.preprocess_wav req1.audio = .ok wav1)
    (he1 : env.embed_utterance wav1 = .ok em1)
    (hx2 : env.preprocess_wav req2.audio = .ok wav2)
    (he2 : env.embed_utterance wav2 = .ok em2) :
    (index env st1 req1).tts_input = (index env st2 req2).tts_input ∧
    (index env st1 req1).tts_input = some (prepend_marker req1.text) ∧
    (∀ f1 f2 w1 w2,
      (index env st1 req1).resp.generated_file = some f1 →
      store_get (index env st1 req1).st.generated f1 = some w1 →
      (index env st2 req2).resp.generated_file = some f2 →
      store_get (index env st2 req2).st.generated f2 = some w2 →
      w1 = w2) := by
  rw [index_of_validated env st1 req1 h1, index_of_validated env st2 req2 h2]
  cases hts : env.tts_save (prepend_marker req1.text) with
  | error e =>
    have hts2 : env.tts_save (prepend_marker req2.text) = .error e := by
      rw [← htxt]; exact hts
    rw [process_accepted_tts_error env st1 req1 wav1 em1 e hx1 he1 hts,
      process_accepted_tts_error env st2 req2 wav2 em2 e hx2 he2 hts2]
    refine ⟨by rw [htxt], rfl, ?_⟩
    intro f1 f2 w1 w2 hf1
    simp at hf1
  | ok wave =>
    have hts2 : env.tts_save (prepend_marker req2.text) = .ok wave := by
      rw [← htxt]; exact hts
    rw [process_accepted_success env st1 req1 wav1 em1 wave hx1 he1 hts,
      process_accepted_success env st2 req2 wav2 em2 wave hx2 he2 hts2]
    refine ⟨by rw [htxt], rfl, ?_⟩
    intro f1 f2 w1 w2 hf1 hw1 hf2 hw2
    have hf1e : f1 = env.secure_filename req1.filename ++ "_synth.wav" := by
      simpa using hf1.symm
    have hf2e : f2 = env.secure_filename req2.filename ++ "_synth.wav" := by
      simpa using hf2.symm
    rw [hf1e] at hw1
    rw [hf2e] at hw2
    have g1 : w1 = wave := by
      have := (store_get_set_same st1.generated
        (env.secure_filename req1.filename ++ "_synth.wav") wave).symm.trans hw1
      exact (Option.some_inj.mp this).symm
    have g2 : w2 = wave := by
      have := (store_get_set_same st2.generated
        (env.secure_filename req2.filename ++ "_synth.wav") wave).symm.trans hw2
      exact (Option.some_inj.mp this).symm
    rw [g1, g2]

/-- Witness for C10: the same text with two different reference audios. -/
theorem output_independent_of_reference_audio_witness :
    (index envOk initSt reqOk).tts_input =
      (index envOk initSt { reqOk with audio := [9, 9, 9] }).tts_input ∧
    (index envOk initSt reqOk).tts_input = some (prepend_marker reqOk.text) ∧
    (((index envOk initSt reqOk).resp.generated_file = some "sample.wav_synth.wav" →
      store_get (index envOk initSt reqOk).st.generated "sample.wav_synth.wav" =
        some [40] →
      (index envOk initSt { reqOk with audio := [9, 9, 9] }).resp.generated_file =
        some "sample.wav_synth.wav" →
      store_get (index envOk initSt { reqOk with audio := [9, 9, 9] }).st.generated
        "sample.wav_synth.wav" = some [40] →
      ([40] : List Int) = [40])) :=
  ⟨(output_independent_of_reference_audio envOk initSt initSt reqOk
      { reqOk with audio := [9, 9, 9] } [1, 2, 3] [7] [9, 9, 9] [7]
      (by decide) (by decide) rfl rfl rfl rfl rfl).1,
    (output_independent_of_reference_audio envOk initSt initSt reqOk
      { reqOk with audio := [9, 9, 9] } [1, 2, 3] [7] [9, 9, 9] [7]
      (by decide) (by decide) rfl rfl rfl rfl rfl).2.1,
    (output_independent_of_reference_audio envOk initSt initSt reqOk
      { reqOk with audio := [9, 9, 9] } [1, 2, 3] [7] [9, 9, 9] [7]
      (by decide) (by decide) rfl rfl rfl rfl rfl).2.2 "sample.wav_synth.wav"
      "sample.wav_synth.wav" [40] [40]⟩

end VoiceCloning
